import Mathlib

/-!
Verification of the `Command -> WireMessage` encoding pipeline of
`jupyter-client-rs` (`src/commands.rs`), shallowly embedded in Lean.

The JSON object model of the `serde_json` dependency is embedded as the
inductive `Json` below, with `Json.render` modelling the compact text
rendering of `serde_json::to_string` on a `Value`.  The two external
collaborators that are not part of the repository's visible source are
passed to the encoder as explicit function parameters:

* the Header collaborator (`Header::new(msg_type)` followed by
  `Header::to_bytes()`), modelled from the spec as a fallible function
  `hdr : String → Except String String` from the message-type string to
  the rendered header bytes;
* the JSON serializer proper (`serde_json::to_string`), modelled as a
  fallible function `ser : Json → Except String String`, with the
  canonical instantiation `serdeToString` that renders the document.

Byte buffers are modelled as `String` (every buffer produced here is the
UTF-8 rendering of a string, `Vec<u8>` via `String::into_bytes`), so the
literal Rust buffer `b"{}"` is the two-character string rendered by
`Json.render (Json.obj [])`.
-/

namespace JupyterClient

/-- The JSON value object model of the `serde_json` dependency, restricted to
the shapes the encoder can produce (no floating-point numbers occur: every
numeric field of the data model is an integer). -/
inductive Json where
  | null : Json
  | bool : Bool → Json
  | num : Int → Json
  | str : String → Json
  | obj : List (String × Json) → Json
deriving Repr

/-- Hexadecimal digit for the control-character escapes of JSON strings. -/
def hexDigit (d : Nat) : Char :=
  if d < 10 then Char.ofNat (48 + d) else Char.ofNat (87 + d)

/-- Escape one character the way `serde_json` renders it inside a JSON
string literal. -/
def escapeChar (c : Char) : String :=
  if c = '"' then "\\\""
  else if c = '\\' then "\\\\"
  else if c = '\n' then "\\n"
  else if c = '\r' then "\\r"
  else if c = '\t' then "\\t"
  else if c = '\x08' then "\\b"
  else if c = '\x0c' then "\\f"
  else if c.toNat < 32 then
    "\\u00" ++ String.singleton (hexDigit (c.toNat / 16)) ++ String.singleton (hexDigit (c.toNat % 16))
  else String.singleton c

/-- Render a string as a quoted, escaped JSON string literal. -/
def renderStringLit (s : String) : String :=
  "\"" ++ String.join (s.toList.map escapeChar) ++ "\""

mutual

/-- Compact text rendering of a JSON document, modelling
`serde_json::to_string` on a `Value`. -/
def Json.render : Json → String
  | Json.null => "null"
  | Json.bool true => "true"
  | Json.bool false => "false"
  | Json.num n => toString n
  | Json.str s => renderStringLit s
  | Json.obj fields => "\x7b" ++ Json.renderFields fields ++ "\x7d"

/-- Render the comma-separated members of a JSON object. -/
def Json.renderFields : List (String × Json) → String
  | [] => ""
  | [p] => Json.renderMember p
  | p :: q :: rest => Json.renderMember p ++ "," ++ Json.renderFields (q :: rest)

/-- Render one `"key":value` member of a JSON object. -/
def Json.renderMember : String × Json → String
  | (k, v) => renderStringLit k ++ ":" ++ Json.render v

end

/-- Read the value bound to a key of a JSON object (`None` on a non-object
or an absent key): the observation a decoder of the content buffer makes. -/
def Json.lookup : Json → String → Option Json
  | Json.obj fields, k => List.lookup k fields
  | _, _ => none

/-- `DetailLevel`, the verbosity selector of `Inspect` — closed enumeration
from `src/commands.rs`. -/
inductive DetailLevel where
  | Zero : DetailLevel
  | One : DetailLevel
deriving Repr, DecidableEq

/-- The hand-written `Serialize` impl for `DetailLevel` in `src/commands.rs`:
`Zero` serializes via `serialize_i32(0)`, `One` via `serialize_i32(1)`. -/
def DetailLevel.serialize : DetailLevel → Json
  | DetailLevel.Zero => Json.num 0
  | DetailLevel.One => Json.num 1

/-- `HistoryAccessType` from `src/commands.rs` (u64 fields as `Nat`, the i64
`session` as `Int`). -/
inductive HistoryAccessType where
  | Tail (n : Nat)
  | Range (session : Int) (start : Nat) (stop : Nat)
  | Search (pattern : String)
deriving Repr, DecidableEq

/-- The derived (externally tagged) `Serialize` impl for `HistoryAccessType`.
`into_wire` never invokes it — the `History` branch hand-builds its JSON —
but it is part of the source's data model. -/
def HistoryAccessType.serialize : HistoryAccessType → Json
  | HistoryAccessType.Tail n =>
      Json.obj [("Tail", Json.obj [("n", Json.num n)])]
  | HistoryAccessType.Range session start stop =>
      Json.obj [("Range", Json.obj [("session", Json.num session),
        ("start", Json.num start), ("stop", Json.num stop)])]
  | HistoryAccessType.Search pattern =>
      Json.obj [("Search", Json.obj [("pattern", Json.str pattern)])]

/-- The `Command` enum from `src/commands.rs`.  `HashMap<String, String>` is
embedded as an association list in the map's iteration order; `u64` as `Nat`. -/
inductive Command where
  | KernelInfo
  | Execute (code : String) (silent : Bool) (store_history : Bool)
      (user_expressions : List (String × String)) (allow_stdin : Bool)
      (stop_on_error : Bool)
  | Inspect (code : String) (cursor_pos : Nat) (detail_level : DetailLevel)
  | Complete (code : String) (cursor_pos : Nat)
  | History (output : Bool) (raw : Bool) (hist_access_type : HistoryAccessType)
      (unique : Bool)
  | IsComplete (code : String)
  | Shutdown (restart : Bool)
deriving Repr

/-- The serializer generated by `#[derive(Serialize)] #[serde(untagged)]` on
`Command`: each struct variant serializes as a flat JSON object of its own
fields, in declaration order, with no variant-name wrapper key; the unit
variant `KernelInfo` serializes as `null` (never used by `into_wire`, whose
`KernelInfo` branch emits the literal bytes instead). -/
def Command.serialize : Command → Json
  | Command.KernelInfo => Json.null
  | Command.Execute code silent store_history user_expressions allow_stdin stop_on_error =>
      Json.obj [("code", Json.str code), ("silent", Json.bool silent),
        ("store_history", Json.bool store_history),
        ("user_expressions", Json.obj (user_expressions.map (fun p => (p.1, Json.str p.2)))),
        ("allow_stdin", Json.bool allow_stdin),
        ("stop_on_error", Json.bool stop_on_error)]
  | Command.Inspect code cursor_pos detail_level =>
      Json.obj [("code", Json.str code), ("cursor_pos", Json.num cursor_pos),
        ("detail_level", detail_level.serialize)]
  | Command.Complete code cursor_pos =>
      Json.obj [("code", Json.str code), ("cursor_pos", Json.num cursor_pos)]
  | Command.History output raw hist_access_type unique =>
      Json.obj [("output", Json.bool output), ("raw", Json.bool raw),
        ("hist_access_type", hist_access_type.serialize),
        ("unique", Json.bool unique)]
  | Command.IsComplete code => Json.obj [("code", Json.str code)]
  | Command.Shutdown restart => Json.obj [("restart", Json.bool restart)]

/-- Modelled from the spec: the error taxonomy of §7 (`errors.rs` is not in
`src/`): `HeaderEncoding` wraps a failure of the Header collaborator,
`ContentEncoding` a JSON-serialization failure; no other variant exists. -/
inductive EncodeError where
  | HeaderEncoding (e : String)
  | ContentEncoding (e : String)
deriving Repr, DecidableEq

/-- The `WireMessage` frame as constructed in `src/commands.rs`: four byte
buffers plus the attached authentication capability of type `M`. -/
structure WireMessage (M : Type) where
  header : String
  parent_header : String
  metadata : String
  content : String
  auth : M
deriving Repr

/-- `Command::into_wire` from `src/commands.rs`, branch for branch.  `hdr`
is the Header collaborator (`Header::new(s).to_bytes()`, failures mapped to
`EncodeError.HeaderEncoding` per the spec's §7), `ser` is
`serde_json::to_string` (failures mapped to `EncodeError.ContentEncoding`). -/
def Command.into_wire {M : Type} (hdr : String → Except String String)
    (ser : Json → Except String String) (c : Command) (auth : M) :
    Except EncodeError (WireMessage M) :=
  match c with
  | Command.KernelInfo => do
      let header_bytes ← (hdr "kernel_info_request").mapError EncodeError.HeaderEncoding
      Except.ok { header := header_bytes, parent_header := "\x7b\x7d",
                  metadata := "\x7b\x7d", content := "\x7b\x7d", auth := auth }
  | r@(Command.Execute ..) => do
      let header_bytes ← (hdr "execute_request").mapError EncodeError.HeaderEncoding
      let content_str ← (ser r.serialize).mapError EncodeError.ContentEncoding
      Except.ok { header := header_bytes, parent_header := "\x7b\x7d",
                  metadata := "\x7b\x7d", content := content_str, auth := auth }
  | r@(Command.Inspect ..) => do
      let header_bytes ← (hdr "inspect_request").mapError EncodeError.HeaderEncoding
      let content_str ← (ser r.serialize).mapError EncodeError.ContentEncoding
      Except.ok { header := header_bytes, parent_header := "\x7b\x7d",
                  metadata := "\x7b\x7d", content := content_str, auth := auth }
  | r@(Command.Complete ..) => do
      let header_bytes ← (hdr "complete_request").mapError EncodeError.HeaderEncoding
      let content_str ← (ser r.serialize).mapError EncodeError.ContentEncoding
      Except.ok { header := header_bytes, parent_header := "\x7b\x7d",
                  metadata := "\x7b\x7d", content := content_str, auth := auth }
  | Command.History output raw hist_access_type unique => do
      let header_bytes ← (hdr "history_request").mapError EncodeError.HeaderEncoding
      let content : Json :=
        match hist_access_type with
        | HistoryAccessType.Tail n => Json.obj [
            ("output", Json.bool output),
            ("raw", Json.bool raw),
            ("unique", Json.bool unique),
            ("hist_access_type", Json.str "tail"),
            ("session", Json.null),
            ("start", Json.null),
            ("stop", Json.null),
            ("n", Json.num n),
            ("pattern", Json.null)]
        | HistoryAccessType.Range session start stop => Json.obj [
            ("output", Json.bool output),
            ("raw", Json.bool raw),
            ("unique", Json.bool unique),
            ("hist_access_type", Json.str "tail"),
            ("session", Json.num session),
            ("start", Json.num start),
            ("stop", Json.num stop),
            ("n", Json.null),
            ("pattern", Json.null)]
        | HistoryAccessType.Search pattern => Json.obj [
            ("output", Json.bool output),
            ("raw", Json.bool raw),
            ("unique", Json.bool unique),
            ("hist_access_type", Json.str "tail"),
            ("session", Json.null),
            ("start", Json.null),
            ("stop", Json.null),
            ("n", Json.null),
            ("pattern", Json.str pattern)]
      let content_str ← (ser content).mapError EncodeError.ContentEncoding
      Except.ok { header := header_bytes, parent_header := "\x7b\x7d",
                  metadata := "\x7b\x7d", content := content_str, auth := auth }
  | Command.IsComplete code => do
      let header_bytes ← (hdr "is_complete_request").mapError EncodeError.HeaderEncoding
      let content_json := Json.obj [("code", Json.str code)]
      let content_str ← (ser content_json).mapError EncodeError.ContentEncoding
      Except.ok { header := header_bytes, parent_header := "\x7b\x7d",
                  metadata := "\x7b\x7d", content := content_str, auth := auth }
  | Command.Shutdown restart => do
      let header_bytes ← (hdr "shutdown_request").mapError EncodeError.HeaderEncoding
      let content_json := Json.obj [("restart", Json.bool restart)]
      let content_str ← (ser content_json).mapError EncodeError.ContentEncoding
      Except.ok { header := header_bytes, parent_header := "\x7b\x7d",
                  metadata := "\x7b\x7d", content := content_str, auth := auth }

/-- The canonical serializer instantiation: `serde_json::to_string` on the
closed data model always succeeds and yields the compact rendering. -/
def serdeToString (j : Json) : Except String String := Except.ok j.render

/-- A Header collaborator that renders the header as the bare message-type
string: under it, the header buffer of a produced frame is exactly the
string `into_wire` handed to `Header::new`. -/
def idHdr (s : String) : Except String String := Except.ok s

/-- The fixed message-type mapping of spec §4.2, written from the spec's
words, for comparison with the strings `into_wire` inlines per branch. -/
def specMessageType : Command → String
  | Command.KernelInfo => "kernel_info_request"
  | Command.Execute .. => "execute_request"
  | Command.Inspect .. => "inspect_request"
  | Command.Complete .. => "complete_request"
  | Command.History .. => "history_request"
  | Command.IsComplete .. => "is_complete_request"
  | Command.Shutdown .. => "shutdown_request"

/-- The JSON document each variant's content buffer is serialized from —
`none` for `KernelInfo`, whose content is the literal buffer `b"{}"` and
never goes through the serializer.  Transcribes the per-branch content
shaping of `into_wire`. -/
def Command.contentDoc : Command → Option Json
  | Command.KernelInfo => none
  | r@(Command.Execute ..) => some r.serialize
  | r@(Command.Inspect ..) => some r.serialize
  | r@(Command.Complete ..) => some r.serialize
  | Command.History output raw hist_access_type unique =>
      some (match hist_access_type with
        | HistoryAccessType.Tail n => Json.obj [
            ("output", Json.bool output),
            ("raw", Json.bool raw),
            ("unique", Json.bool unique),
            ("hist_access_type", Json.str "tail"),
            ("session", Json.null),
            ("start", Json.null),
            ("stop", Json.null),
            ("n", Json.num n),
            ("pattern", Json.null)]
        | HistoryAccessType.Range session start stop => Json.obj [
            ("output", Json.bool output),
            ("raw", Json.bool raw),
            ("unique", Json.bool unique),
            ("hist_access_type", Json.str "tail"),
            ("session", Json.num session),
            ("start", Json.num start),
            ("stop", Json.num stop),
            ("n", Json.null),
            ("pattern", Json.null)]
        | HistoryAccessType.Search pattern => Json.obj [
            ("output", Json.bool output),
            ("raw", Json.bool raw),
            ("unique", Json.bool unique),
            ("hist_access_type", Json.str "tail"),
            ("session", Json.null),
            ("start", Json.null),
            ("stop", Json.null),
            ("n", Json.null),
            ("pattern", Json.str pattern)])
  | Command.IsComplete code => some (Json.obj [("code", Json.str code)])
  | Command.Shutdown restart => some (Json.obj [("restart", Json.bool restart)])

/-- Reduction of `Except` bind on a success value. -/
theorem except_bind_ok {ε α β : Type} (x : α) (f : α → Except ε β) :
    (Except.ok x >>= f) = f x := rfl

/-- Reduction of `Except` bind on an error value. -/
theorem except_bind_error {ε α β : Type} (e : ε) (f : α → Except ε β) :
    ((Except.error e : Except ε α) >>= f) = Except.error e := rfl

/-- `Except.mapError` on a success value. -/
theorem except_mapError_ok {ε δ α : Type} (f : ε → δ) (x : α) :
    Except.mapError f (Except.ok x : Except ε α) = Except.ok x := rfl

/-- `Except.mapError` on an error value. -/
theorem except_mapError_error {ε δ α : Type} (f : ε → δ) (e : ε) :
    Except.mapError f (Except.error e : Except ε α) = Except.error (f e) := rfl

/-- `Except.map` on a success value. -/
theorem except_map_ok {ε α β : Type} (f : α → β) (x : α) :
    Except.map f (Except.ok x : Except ε α) = Except.ok (f x) := rfl

/-- `Except.map` on an error value. -/
theorem except_map_error {ε α β : Type} (f : α → β) (e : ε) :
    Except.map f (Except.error e : Except ε α) = Except.error e := rfl

/-- `into_wire` factors through the spec-side message-type mapping and the
per-variant content document: every branch builds its header from the fixed
message-type string, serializes the content document (the `KernelInfo`
branch instead emits the literal buffer), and assembles the frame with the
two empty-object buffers and the untouched capability. -/
theorem into_wire_factored {M : Type} (hdr : String → Except String String)
    (ser : Json → Except String String) (c : Command) (auth : M) :
    Command.into_wire hdr ser c auth =
      ((hdr (specMessageType c)).mapError EncodeError.HeaderEncoding >>= fun header_bytes =>
        (match c.contentDoc with
          | none => (Except.ok "\x7b\x7d" : Except EncodeError String)
          | some j => (ser j).mapError EncodeError.ContentEncoding) >>= fun content_str =>
        Except.ok { header := header_bytes, parent_header := "\x7b\x7d",
                    metadata := "\x7b\x7d", content := content_str, auth := auth }) := by
  cases c
  case History output raw hist_access_type unique => cases hist_access_type <;> rfl
  all_goals rfl

/-- Inversion principle for a successful encode: the header collaborator
succeeded on the variant's message-type string, the content buffer is the
serializer's output on the variant's content document (the literal empty
object for `KernelInfo`), and the frame is exactly the assembled record. -/
theorem into_wire_ok_iff {M : Type} (hdr : String → Except String String)
    (ser : Json → Except String String) (c : Command) (auth : M)
    (w : WireMessage M) :
    Command.into_wire hdr ser c auth = Except.ok w ↔
      ∃ s, hdr (specMessageType c) = Except.ok s ∧
        ∃ cs, ((c.contentDoc = none ∧ cs = "\x7b\x7d") ∨
               (∃ j, c.contentDoc = some j ∧ ser j = Except.ok cs)) ∧
          w = { header := s, parent_header := "\x7b\x7d", metadata := "\x7b\x7d",
                content := cs, auth := auth } := by
  rw [into_wire_factored]
  cases hh : hdr (specMessageType c) with
  | error e =>
      simp [except_mapError_error, except_bind_error]
  | ok s =>
      cases hc : c.contentDoc with
      | none =>
          simp [except_mapError_ok, except_bind_ok, eq_comm]
      | some j =>
          cases hs : ser j with
          | error e =>
              simp [hs, except_mapError_ok, except_mapError_error, except_bind_ok,
                except_bind_error]
          | ok cs =>
              simp [hs, except_mapError_ok, except_bind_ok, eq_comm]

/-- C1: for every `Command` variant, encoding (`Command::into_wire`) builds
the header with exactly the message-type string fixed by the variant — the
header buffer of the frame is the Header collaborator's output on
`specMessageType c`, and the spec mapping sends the seven variants to
`kernel_info_request`, `execute_request`, `inspect_request`,
`complete_request`, `history_request`, `is_complete_request` and
`shutdown_request`, totally and with no default fall-through. -/
theorem c1_message_type_mapping {M : Type} (hdr : String → Except String String)
    (c : Command) (auth : M) :
    Except.map (fun w => WireMessage.header w)
        (Command.into_wire hdr serdeToString c auth)
      = Except.mapError EncodeError.HeaderEncoding (hdr (specMessageType c)) ∧
    specMessageType Command.KernelInfo = "kernel_info_request" ∧
    (∀ code silent store_history user_expressions allow_stdin stop_on_error,
      specMessageType (Command.Execute code silent store_history user_expressions
        allow_stdin stop_on_error) = "execute_request") ∧
    (∀ code cursor_pos detail_level,
      specMessageType (Command.Inspect code cursor_pos detail_level)
        = "inspect_request") ∧
    (∀ code cursor_pos,
      specMessageType (Command.Complete code cursor_pos) = "complete_request") ∧
    (∀ output raw hist_access_type unique,
      specMessageType (Command.History output raw hist_access_type unique)
        = "history_request") ∧
    (∀ code, specMessageType (Command.IsComplete code) = "is_complete_request") ∧
    (∀ restart, specMessageType (Command.Shutdown restart) = "shutdown_request") := by
  refine ⟨?_, rfl, fun _ _ _ _ _ _ => rfl, fun _ _ _ => rfl, fun _ _ => rfl,
    fun _ _ _ _ => rfl, fun _ => rfl, fun _ => rfl⟩
  rw [into_wire_factored]
  cases hh : hdr (specMessageType c) with
  | error e => simp [except_mapError_error, except_bind_error, except_map_error]
  | ok s =>
      cases hc : c.contentDoc with
      | none => simp [except_mapError_ok, except_bind_ok, except_map_ok]
      | some j =>
          simp [serdeToString, except_mapError_ok, except_bind_ok, except_map_ok]

/-- C2: for every `History` command, whichever `HistoryAccessType` variant is
supplied, the encoded content JSON object binds `hist_access_type` to the
literal string `"tail"`, populates the selector fields of the active variant
from its fields, and binds every selector field not belonging to the active
variant to explicit JSON null. -/
theorem c2_history_content {M : Type} (auth : M) (output raw unique : Bool) :
    (∀ n : Nat, ∃ j : Json,
      Command.into_wire idHdr serdeToString
          (Command.History output raw (HistoryAccessType.Tail n) unique) auth
        = Except.ok { header := "history_request", parent_header := "\x7b\x7d",
                      metadata := "\x7b\x7d", content := j.render, auth := auth } ∧
      j.lookup "hist_access_type" = some (Json.str "tail") ∧
      j.lookup "n" = some (Json.num n) ∧
      j.lookup "session" = some Json.null ∧
      j.lookup "start" = some Json.null ∧
      j.lookup "stop" = some Json.null ∧
      j.lookup "pattern" = some Json.null) ∧
    (∀ (session : Int) (start stop : Nat), ∃ j : Json,
      Command.into_wire idHdr serdeToString
          (Command.History output raw (HistoryAccessType.Range session start stop) unique) auth
        = Except.ok { header := "history_request", parent_header := "\x7b\x7d",
                      metadata := "\x7b\x7d", content := j.render, auth := auth } ∧
      j.lookup "hist_access_type" = some (Json.str "tail") ∧
      j.lookup "session" = some (Json.num session) ∧
      j.lookup "start" = some (Json.num start) ∧
      j.lookup "stop" = some (Json.num stop) ∧
      j.lookup "n" = some Json.null ∧
      j.lookup "pattern" = some Json.null) ∧
    (∀ pattern : String, ∃ j : Json,
      Command.into_wire idHdr serdeToString
          (Command.History output raw (HistoryAccessType.Search pattern) unique) auth
        = Except.ok { header := "history_request", parent_header := "\x7b\x7d",
                      metadata := "\x7b\x7d", content := j.render, auth := auth } ∧
      j.lookup "hist_access_type" = some (Json.str "tail") ∧
      j.lookup "pattern" = some (Json.str pattern) ∧
      j.lookup "session" = some Json.null ∧
      j.lookup "start" = some Json.null ∧
      j.lookup "stop" = some Json.null ∧
      j.lookup "n" = some Json.null) :=
  ⟨fun _ => ⟨_, rfl, rfl, rfl, rfl, rfl, rfl, rfl⟩,
   fun _ _ _ => ⟨_, rfl, rfl, rfl, rfl, rfl, rfl, rfl⟩,
   fun _ => ⟨_, rfl, rfl, rfl, rfl, rfl, rfl, rfl⟩⟩

/-- C3: round-trip — for every `Execute`, `Inspect`, `Complete`, `IsComplete`
and `Shutdown` command, the successfully encoded content buffer is the
rendering of a JSON object whose keys are the variant's field names, reading
each such key yields the original field value (`DetailLevel` read back as the
integer 0 or 1), and the object carries no wrapper key naming the variant. -/
theorem c3_roundtrip_content_fields {M : Type} (auth : M) :
    (∀ (code : String) (silent store_history : Bool)
        (user_expressions : List (String × String)) (allow_stdin stop_on_error : Bool),
      ∃ j : Json,
        Command.into_wire idHdr serdeToString
            (Command.Execute code silent store_history user_expressions
              allow_stdin stop_on_error) auth
          = Except.ok { header := "execute_request", parent_header := "\x7b\x7d",
                        metadata := "\x7b\x7d", content := j.render, auth := auth } ∧
        j.lookup "code" = some (Json.str code) ∧
        j.lookup "silent" = some (Json.bool silent) ∧
        j.lookup "store_history" = some (Json.bool store_history) ∧
        j.lookup "user_expressions"
          = some (Json.obj (user_expressions.map (fun p => (p.1, Json.str p.2)))) ∧
        j.lookup "allow_stdin" = some (Json.bool allow_stdin) ∧
        j.lookup "stop_on_error" = some (Json.bool stop_on_error) ∧
        j.lookup "Execute" = none) ∧
    (∀ (code : String) (cursor_pos : Nat) (detail_level : DetailLevel),
      ∃ j : Json,
        Command.into_wire idHdr serdeToString
            (Command.Inspect code cursor_pos detail_level) auth
          = Except.ok { header := "inspect_request", parent_header := "\x7b\x7d",
                        metadata := "\x7b\x7d", content := j.render, auth := auth } ∧
        j.lookup "code" = some (Json.str code) ∧
        j.lookup "cursor_pos" = some (Json.num cursor_pos) ∧
        j.lookup "detail_level" = some detail_level.serialize ∧
        (detail_level.serialize = Json.num 0 ∨ detail_level.serialize = Json.num 1) ∧
        j.lookup "Inspect" = none) ∧
    (∀ (code : String) (cursor_pos : Nat),
      ∃ j : Json,
        Command.into_wire idHdr serdeToString
            (Command.Complete code cursor_pos) auth
          = Except.ok { header := "complete_request", parent_header := "\x7b\x7d",
                        metadata := "\x7b\x7d", content := j.render, auth := auth } ∧
        j.lookup "code" = some (Json.str code) ∧
        j.lookup "cursor_pos" = some (Json.num cursor_pos) ∧
        j.lookup "Complete" = none) ∧
    (∀ code : String,
      ∃ j : Json,
        Command.into_wire idHdr serdeToString (Command.IsComplete code) auth
          = Except.ok { header := "is_complete_request", parent_header := "\x7b\x7d",
                        metadata := "\x7b\x7d", content := j.render, auth := auth } ∧
        j.lookup "code" = some (Json.str code) ∧
        j.lookup "IsComplete" = none) ∧
    (∀ restart : Bool,
      ∃ j : Json,
        Command.into_wire idHdr serdeToString (Command.Shutdown restart) auth
          = Except.ok { header := "shutdown_request", parent_header := "\x7b\x7d",
                        metadata := "\x7b\x7d", content := j.render, auth := auth } ∧
        j.lookup "restart" = some (Json.bool restart) ∧
        j.lookup "Shutdown" = none) :=
  ⟨fun _ _ _ _ _ _ => ⟨_, rfl, rfl, rfl, rfl, rfl, rfl, rfl, rfl⟩,
   fun _ _ detail_level => ⟨_, rfl, rfl, rfl, rfl,
     (match detail_level with
      | DetailLevel.Zero => Or.inl rfl
      | DetailLevel.One => Or.inr rfl), rfl⟩,
   fun _ _ => ⟨_, rfl, rfl, rfl, rfl⟩,
   fun _ => ⟨_, rfl, rfl, rfl⟩,
   fun _ => ⟨_, rfl, rfl, rfl⟩⟩

/-- C4: for every `Command` variant and every authentication capability, a
successful encode produces a frame whose `parent_header` and `metadata`
buffers each equal the two-byte rendering of the empty JSON object. -/
theorem c4_empty_parent_and_metadata {M : Type} (hdr : String → Except String String)
    (ser : Json → Except String String) (c : Command) (auth : M)
    (w : WireMessage M) (h : Command.into_wire hdr ser c auth = Except.ok w) :
    w.parent_header = "\x7b\x7d" ∧ w.metadata = "\x7b\x7d" ∧
    w.parent_header = Json.render (Json.obj []) ∧
    w.metadata = Json.render (Json.obj []) ∧
    w.parent_header.length = 2 ∧ w.metadata.length = 2 := by
  rcases (into_wire_ok_iff hdr ser c auth w).mp h with ⟨s, _, cs, _, rfl⟩
  exact ⟨rfl, rfl, rfl, rfl, rfl, rfl⟩

/-- Witness for C4 at the `KernelInfo` command with capability `0 : Nat`. -/
theorem c4_empty_parent_and_metadata_witness :
    (WireMessage.mk "kernel_info_request" "\x7b\x7d" "\x7b\x7d" "\x7b\x7d" (0 : Nat)).parent_header
      = "\x7b\x7d" ∧
    (WireMessage.mk "kernel_info_request" "\x7b\x7d" "\x7b\x7d" "\x7b\x7d" (0 : Nat)).metadata
      = "\x7b\x7d" ∧
    (WireMessage.mk "kernel_info_request" "\x7b\x7d" "\x7b\x7d" "\x7b\x7d" (0 : Nat)).parent_header
      = Json.render (Json.obj []) ∧
    (WireMessage.mk "kernel_info_request" "\x7b\x7d" "\x7b\x7d" "\x7b\x7d" (0 : Nat)).metadata
      = Json.render (Json.obj []) ∧
    (WireMessage.mk "kernel_info_request" "\x7b\x7d" "\x7b\x7d" "\x7b\x7d" (0 : Nat)).parent_header.length
      = 2 ∧
    (WireMessage.mk "kernel_info_request" "\x7b\x7d" "\x7b\x7d" "\x7b\x7d" (0 : Nat)).metadata.length
      = 2 :=
  c4_empty_parent_and_metadata idHdr serdeToString Command.KernelInfo 0
    (WireMessage.mk "kernel_info_request" "\x7b\x7d" "\x7b\x7d" "\x7b\x7d" 0) rfl

/-- C5: for the `KernelInfo` command, a successful encode produces a frame
whose content buffer is the rendering of the empty JSON object, which binds
no key. -/
theorem c5_kernel_info_empty_content {M : Type} (hdr : String → Except String String)
    (ser : Json → Except String String) (auth : M) (w : WireMessage M)
    (h : Command.into_wire hdr ser Command.KernelInfo auth = Except.ok w) :
    w.content = "\x7b\x7d" ∧ w.content = Json.render (Json.obj []) ∧
    (∀ k, (Json.obj []).lookup k = none) := by
  rcases (into_wire_ok_iff hdr ser Command.KernelInfo auth w).mp h with
    ⟨s, _, cs, ⟨_, rfl⟩ | ⟨j, hj, _⟩, rfl⟩
  · exact ⟨rfl, rfl, fun k => rfl⟩
  · simp [Command.contentDoc] at hj

/-- Witness for C5 with capability `0 : Nat`. -/
theorem c5_kernel_info_empty_content_witness :
    (WireMessage.mk "kernel_info_request" "\x7b\x7d" "\x7b\x7d" "\x7b\x7d" (0 : Nat)).content
      = "\x7b\x7d" ∧
    (WireMessage.mk "kernel_info_request" "\x7b\x7d" "\x7b\x7d" "\x7b\x7d" (0 : Nat)).content
      = Json.render (Json.obj []) ∧
    (∀ k, (Json.obj []).lookup k = none) :=
  c5_kernel_info_empty_content idHdr serdeToString 0
    (WireMessage.mk "kernel_info_request" "\x7b\x7d" "\x7b\x7d" "\x7b\x7d" 0) rfl

/-- C6: `DetailLevel.Zero` serializes to the JSON integer 0 and
`DetailLevel.One` to the JSON integer 1; serializing a `DetailLevel` never
produces any other value, in particular never a string or a boolean. -/
theorem c6_detail_level_serialization :
    DetailLevel.serialize DetailLevel.Zero = Json.num 0 ∧
    DetailLevel.serialize DetailLevel.One = Json.num 1 ∧
    (∀ d, DetailLevel.serialize d = Json.num 0 ∨ DetailLevel.serialize d = Json.num 1) ∧
    (∀ d s, DetailLevel.serialize d ≠ Json.str s) ∧
    (∀ d b, DetailLevel.serialize d ≠ Json.bool b) := by
  refine ⟨rfl, rfl, fun d => ?_, fun d s => ?_, fun d b => ?_⟩ <;>
    cases d <;> simp [DetailLevel.serialize]

/-- C7: for every `History` command, whichever access-type variant is active,
the emitted content JSON object binds all five selector keys `session`,
`start`, `stop`, `n`, `pattern` (as well as `output`, `raw`, `unique` and
`hist_access_type`) — keys not meaningful for the active variant are present
(bound to null by C2), never omitted. -/
theorem c7_history_all_selector_keys {M : Type} (auth : M)
    (output raw unique : Bool) (hist_access_type : HistoryAccessType) :
    ∃ j : Json,
      Command.into_wire idHdr serdeToString
          (Command.History output raw hist_access_type unique) auth
        = Except.ok { header := "history_request", parent_header := "\x7b\x7d",
                      metadata := "\x7b\x7d", content := j.render, auth := auth } ∧
      (j.lookup "session").isSome = true ∧
      (j.lookup "start").isSome = true ∧
      (j.lookup "stop").isSome = true ∧
      (j.lookup "n").isSome = true ∧
      (j.lookup "pattern").isSome = true ∧
      (j.lookup "output").isSome = true ∧
      (j.lookup "raw").isSome = true ∧
      (j.lookup "unique").isSome = true ∧
      (j.lookup "hist_access_type").isSome = true := by
  cases hist_access_type <;>
    exact ⟨_, rfl, rfl, rfl, rfl, rfl, rfl, rfl, rfl, rfl, rfl⟩

/-- C8: encoding fails with `HeaderEncoding` exactly when the Header
collaborator's rendering fails, and with `ContentEncoding` exactly when the
JSON serialization of the variant's content document fails (performed only
after the header succeeded; `KernelInfo` has no content document to
serialize); no other failure mode exists, and the result is either a
complete frame or one of these two errors. -/
theorem c8_error_taxonomy {M : Type} (hdr : String → Except String String)
    (ser : Json → Except String String) (c : Command) (auth : M) :
    (∀ e, Command.into_wire hdr ser c auth
          = Except.error (EncodeError.HeaderEncoding e)
        ↔ hdr (specMessageType c) = Except.error e) ∧
    (∀ e, Command.into_wire hdr ser c auth
          = Except.error (EncodeError.ContentEncoding e)
        ↔ (∃ s, hdr (specMessageType c) = Except.ok s) ∧
          ∃ j, c.contentDoc = some j ∧ ser j = Except.error e) ∧
    ((∃ w, Command.into_wire hdr ser c auth = Except.ok w) ∨
     (∃ e, Command.into_wire hdr ser c auth
        = Except.error (EncodeError.HeaderEncoding e)) ∨
     (∃ e, Command.into_wire hdr ser c auth
        = Except.error (EncodeError.ContentEncoding e))) := by
  rw [into_wire_factored]
  cases hh : hdr (specMessageType c) with
  | error e =>
      refine ⟨fun e2 => ?_, fun e2 => ?_, ?_⟩ <;>
        simp [except_mapError_error, except_bind_error]
  | ok s =>
      cases hc : c.contentDoc with
      | none =>
          refine ⟨fun e2 => ?_, fun e2 => ?_, ?_⟩ <;>
            simp [except_mapError_ok, except_bind_ok]
      | some j =>
          cases hs : ser j with
          | error e =>
              refine ⟨fun e2 => ?_, fun e2 => ?_, ?_⟩ <;>
                simp [hs, except_mapError_ok, except_mapError_error,
                  except_bind_ok, except_bind_error]
          | ok cs =>
              refine ⟨fun e2 => ?_, fun e2 => ?_, ?_⟩ <;>
                simp [hs, except_mapError_ok, except_bind_ok]

/-- C9: for every `Command` variant, the capability supplied to the encoder
is stored in the resulting frame's `auth` field unmodified. -/
theorem c9_auth_attached_unmodified {M : Type} (hdr : String → Except String String)
    (ser : Json → Except String String) (c : Command) (auth : M)
    (w : WireMessage M) (h : Command.into_wire hdr ser c auth = Except.ok w) :
    w.auth = auth := by
  rcases (into_wire_ok_iff hdr ser c auth w).mp h with ⟨s, _, cs, _, rfl⟩
  rfl

/-- Witness for C9 at the `KernelInfo` command with capability `7 : Nat`. -/
theorem c9_auth_attached_unmodified_witness :
    (WireMessage.mk "kernel_info_request" "\x7b\x7d" "\x7b\x7d" "\x7b\x7d" (7 : Nat)).auth
      = 7 :=
  c9_auth_attached_unmodified idHdr serdeToString Command.KernelInfo 7
    (WireMessage.mk "kernel_info_request" "\x7b\x7d" "\x7b\x7d" "\x7b\x7d" 7) rfl

/-- C10: noninterference of the authentication capability with the encoded
buffers — encoding the same command with any two capabilities (even of
different types) yields frames with identical `header`, `parent_header`,
`metadata` and `content` buffers, and identical success or failure. -/
theorem c10_capability_noninterference {M₁ M₂ : Type}
    (hdr : String → Except String String) (ser : Json → Except String String)
    (c : Command) (a1 : M₁) (a2 : M₂) :
    Except.map (fun w => (w.header, w.parent_header, w.metadata, w.content))
        (Command.into_wire hdr ser c a1)
      = Except.map (fun w => (w.header, w.parent_header, w.metadata, w.content))
        (Command.into_wire hdr ser c a2) := by
  rw [into_wire_factored, into_wire_factored]
  cases hh : hdr (specMessageType c) with
  | error e => rfl
  | ok s =>
      cases hc : c.contentDoc with
      | none => rfl
      | some j =>
          cases hs : ser j with
          | error e =>
              simp [hs, except_mapError_ok, except_mapError_error,
                except_bind_ok, except_bind_error, except_map_error]
          | ok cs =>
              simp [hs, except_mapError_ok, except_bind_ok, except_map_ok]

end JupyterClient
